import Mathlib

/-!
Verification of the MedIntel condition-detection and risk-scoring core.

The definitions below are shallow embeddings of the Python source:
  * `SimpleHeartModel.predict`     from src/models/simple_heart_model.py
  * `SimpleAlzheimerModel.predict` from src/models/simple_alzheimer_model.py
  * `HybridAlzheimerModel.predict` from src/models/hybrid_alzheimer_model.py
  * `HybridHeartDiseaseModel.predict` from src/models/hybrid_heart_model.py
  * `detect_medical_condition`     from src/utils/medicine_service.py
  * urgency classification         from src/models/advanced_ai_chat.py
  * `normalize_payload` / routes   from src/routes/prediction.py

Python floats are modelled as exact rationals; `round(x, d)` is modelled as
rounding to `d` decimal places (`roundTo1`, `roundTo3`).  All scoring claims
live in the rule-based fallback paths, which are pure arithmetic on the
feature vector; the trained-model paths are never exercised in the
repository (no model artifact exists) and are abstracted as parameters
where they occur.
-/

/-- Model of Python `round(x, 1)` on exact rationals (rounding to one
decimal place; tie behaviour differs from binary-float banker rounding
only on exact `.05` boundaries, which no claim here depends on beyond a
`± 0.05` envelope). -/
def roundTo1 (q : ℚ) : ℚ := (round (10 * q) : ℤ) / 10

/-- Model of Python `round(x, 3)`. -/
def roundTo3 (q : ℚ) : ℚ := (round (1000 * q) : ℤ) / 1000

/-- Length repair performed at the top of every `predict` in the source:
`if len(features) != n:` pad on the right with zeros when too short,
truncate with `features[:n]` when too long. -/
def fitTo (n : ℕ) (xs : List ℚ) : List ℚ :=
  if xs.length = n then xs
  else if xs.length < n then xs ++ List.replicate (n - xs.length) 0
  else xs.take n

/-- Result dictionary returned by the heart-disease predictors
(`simple_heart_model.py` and the not-trained / error shapes of
`hybrid_heart_model.py`); the keys are exactly the Python dict keys. -/
structure HeartResult where
  prediction : String
  risk_percentage : ℚ
  risk_level : String
  no_disease_probability : ℚ
  disease_probability : ℚ
  confidence : ℚ
  model_used : String
deriving Repr, DecidableEq

namespace SimpleHeartModel

/-- The additive risk score of the rule-based fallback branch of
`SimpleHeartModel.predict` (src/models/simple_heart_model.py lines 96-153),
one summand per scored feature.  `restecg`, `thalach` and `slope` are
accepted but not scored, exactly as in the source. -/
def riskScoreOf (age sex cp trestbps chol fbs restecg thalach exang oldpeak
    slope ca thal : ℚ) : ℚ :=
  (if age > 65 then 3 else if age > 55 then 2 else if age > 45 then 1 else 0)
  + (if sex = 1 then 1 else 0)
  + cp
  + (if trestbps > 160 then 3 else if trestbps > 140 then 2
     else if trestbps > 120 then 1 else 0)
  + (if chol > 300 then 3 else if chol > 240 then 2
     else if chol > 200 then 1 else 0)
  + (if fbs = 1 then 1 else 0)
  + (if exang = 1 then 2 else 0)
  + (if oldpeak > 2 then 3 else if oldpeak > 1 then 2
     else if oldpeak > (1/2) then 1 else 0)
  + ca
  + (if thal = 3 then 2 else if thal = 6 then 1 else 0)

/-- Tail of the rule-based branch after the risk score is accumulated
(src/models/simple_heart_model.py lines 155-181): probability from the
risk score capped at 95, three-bucket risk level, fixed 85.0 confidence,
and `round(., 1)` applied when building the result dict. -/
def resultOfRisk (risk_score : ℚ) : HeartResult :=
  let disease_prob := min (risk_score / 20 * 100) 95
  let no_disease_prob := 100 - disease_prob
  let risk_level :=
    if disease_prob ≥ 70 then "High"
    else if disease_prob ≥ 40 then "Medium" else "Low"
  let prediction_text :=
    if disease_prob ≥ 70 then "Heart Disease Detected"
    else if disease_prob ≥ 40 then "Moderate Risk of Heart Disease"
    else "No Heart Disease"
  { prediction := prediction_text
    risk_percentage := roundTo1 disease_prob
    risk_level := risk_level
    no_disease_probability := roundTo1 no_disease_prob
    disease_probability := roundTo1 disease_prob
    confidence := roundTo1 85
    model_used := "Rule-Based Analysis" }

/-- Rule-based fallback branch of `SimpleHeartModel.predict` applied to an
unpacked 13-feature vector (lines 92-181 of the source). -/
def rule (age sex cp trestbps chol fbs restecg thalach exang oldpeak
    slope ca thal : ℚ) : HeartResult :=
  resultOfRisk (riskScoreOf age sex cp trestbps chol fbs restecg thalach
    exang oldpeak slope ca thal)

/-- `SimpleHeartModel.predict` on a numeric feature list, in the state the
repository always runs in (`self.model is None`): length repair followed
by the rule-based branch.  After `fitTo 13` the list has exactly 13
elements, so positional reads with default 0 coincide with the Python
tuple unpacking. -/
def predict (features : List ℚ) : HeartResult :=
  let f := fitTo 13 features
  rule (f.getD 0 0) (f.getD 1 0) (f.getD 2 0) (f.getD 3 0) (f.getD 4 0)
    (f.getD 5 0) (f.getD 6 0) (f.getD 7 0) (f.getD 8 0) (f.getD 9 0)
    (f.getD 10 0) (f.getD 11 0) (f.getD 12 0)

/-- The risk score as computed by `predict` on a feature list. -/
def riskScore (features : List ℚ) : ℚ :=
  let f := fitTo 13 features
  riskScoreOf (f.getD 0 0) (f.getD 1 0) (f.getD 2 0) (f.getD 3 0) (f.getD 4 0)
    (f.getD 5 0) (f.getD 6 0) (f.getD 7 0) (f.getD 8 0) (f.getD 9 0)
    (f.getD 10 0) (f.getD 11 0) (f.getD 12 0)

end SimpleHeartModel

/-- ASCII apostrophe, used inside several source strings. -/
def apos : String := String.singleton (Char.ofNat 39)

/-- The error-shaped dict of `SimpleHeartModel.predict`'s `except` clause
(src/models/simple_heart_model.py lines 183-193). -/
def SimpleHeartModel.errorResult : HeartResult :=
  { prediction := "Prediction Error"
    risk_percentage := 50
    risk_level := "Unknown"
    no_disease_probability := 50
    disease_probability := 50
    confidence := 0
    model_used := "Error" }

/-- Result dictionary returned by the Alzheimer predictors
(`simple_alzheimer_model.py`); keys are the Python dict keys. -/
structure AlzResult where
  prediction : String
  risk_percentage : ℚ
  risk_level : String
  severity_level : String
  confidence : ℚ
  model_used : String
  mild_probability : ℚ
  moderate_probability : ℚ
  severe_probability : ℚ
  normal_probability : ℚ
deriving Repr, DecidableEq

namespace SimpleAlzheimerModel

/-- Severity bucket chosen purely from the MMSE feature in the rule-based
branch of `SimpleAlzheimerModel.predict`
(src/models/simple_alzheimer_model.py lines 113-128). -/
def severityOf (mmse : ℚ) : String :=
  if mmse < 10 then "Severe"
  else if mmse < 18 then "Moderate"
  else if mmse < 24 then "Mild"
  else "Normal"

/-- Additive risk score of the rule-based branch (lines 113-155):
MMSE band plus age, education, SES, brain-volume and eTIV bands.
`asf` is accepted but not scored, exactly as in the source. -/
def riskScoreOf (age educ ses mmse etiv nwbv asf : ℚ) : ℚ :=
  (if mmse < 10 then 4 else if mmse < 18 then 3 else if mmse < 24 then 2 else 0)
  + (if age > 80 then 2 else if age > 70 then 1 else if age > 60 then 1/2 else 0)
  + (if educ < 8 then 1 else if educ < 12 then 1/2 else 0)
  + (if ses < 2 then 1 else if ses < 3 then 1/2 else 0)
  + (if nwbv < 7/10 then 1 else 0)
  + (if etiv > 1500 then 1/2 else 0)

/-- Tail of the rule-based branch of `SimpleAlzheimerModel.predict` after
severity and risk score are fixed (lines 157-214): capped risk percentage,
per-severity probability split, three-bucket risk level, fixed confidence
85.0, and `round(., 1)` at dict building.  The probability tuple is
(severe, moderate, mild, normal) in source order. -/
def resultOf (predicted_severity : String) (risk_score : ℚ) : AlzResult :=
  let risk_percentage := min (risk_score / 10 * 100) 95
  let probs : ℚ × ℚ × ℚ × ℚ :=
    if predicted_severity = "Severe" then
      (risk_percentage, 0, 0, 100 - risk_percentage)
    else if predicted_severity = "Moderate" then
      (risk_percentage * (3/10), risk_percentage * (7/10), 0, 100 - risk_percentage)
    else if predicted_severity = "Mild" then
      (0, risk_percentage * (2/10), risk_percentage * (8/10), 100 - risk_percentage)
    else
      (0, 0, risk_percentage * (1/10), 100 - risk_percentage)
  let risk_level :=
    if risk_percentage ≥ 70 then "High"
    else if risk_percentage ≥ 40 then "Medium" else "Low"
  let prediction_text :=
    if predicted_severity = "Normal" then "No Alzheimer" ++ apos ++ "s Disease"
    else if predicted_severity = "Mild" then "Mild Cognitive Impairment"
    else if predicted_severity = "Moderate" then "Moderate Alzheimer" ++ apos ++ "s Disease"
    else "Severe Alzheimer" ++ apos ++ "s Disease"
  { prediction := prediction_text
    risk_percentage := roundTo1 risk_percentage
    risk_level := risk_level
    severity_level := predicted_severity
    confidence := roundTo1 85
    model_used := "Rule-Based Analysis"
    mild_probability := roundTo1 probs.2.2.1
    moderate_probability := roundTo1 probs.2.1
    severe_probability := roundTo1 probs.1
    normal_probability := roundTo1 probs.2.2.2 }

/-- Rule-based branch of `SimpleAlzheimerModel.predict` on an unpacked
7-feature vector (lines 112-214): severity from MMSE alone, additive risk
score, then the shared result construction. -/
def rule (age educ ses mmse etiv nwbv asf : ℚ) : AlzResult :=
  resultOf (severityOf mmse) (riskScoreOf age educ ses mmse etiv nwbv asf)

/-- `SimpleAlzheimerModel.predict` on a numeric feature list, in the state
the repository always runs in (`self.model is None`): length repair then
the rule-based branch.  After `fitTo 7` the list has exactly 7 elements,
so positional reads with default 0 coincide with the tuple unpacking. -/
def predict (features : List ℚ) : AlzResult :=
  let f := fitTo 7 features
  rule (f.getD 0 0) (f.getD 1 0) (f.getD 2 0) (f.getD 3 0) (f.getD 4 0)
    (f.getD 5 0) (f.getD 6 0)

/-- The uncapped-then-capped risk percentage that `predict` computes,
before rounding. -/
def riskPercentage (features : List ℚ) : ℚ :=
  let f := fitTo 7 features
  min (riskScoreOf (f.getD 0 0) (f.getD 1 0) (f.getD 2 0) (f.getD 3 0)
    (f.getD 4 0) (f.getD 5 0) (f.getD 6 0) / 10 * 100) 95

/-- The error-shaped dict of the `except` clause (lines 216-229). -/
def errorResult : AlzResult :=
  { prediction := "Prediction Error"
    risk_percentage := 50
    risk_level := "Unknown"
    severity_level := "Unknown"
    confidence := 0
    model_used := "Error"
    mild_probability := 0
    moderate_probability := 0
    severe_probability := 0
    normal_probability := 100 }

end SimpleAlzheimerModel

/-- Result dictionary of `HybridAlzheimerModel.predict`
(src/models/hybrid_alzheimer_model.py), including the three
`individual_predictions` entries. -/
structure HybridAlzResult where
  prediction : String
  risk_percentage : ℚ
  risk_level : String
  severity_level : String
  confidence : ℚ
  mild_probability : ℚ
  moderate_probability : ℚ
  severe_probability : ℚ
  normal_probability : ℚ
  model_used : String
  individual_xgboost : ℚ
  individual_ann : ℚ
  individual_rnn : ℚ
deriving Repr, DecidableEq

namespace HybridAlzheimerModel

/-- Continuous fallback score of `HybridAlzheimerModel.predict`
(src/models/hybrid_alzheimer_model.py lines 119-124).  `educ` and `etiv`
are accepted but not scored, exactly as in the source. -/
def scoreOf (age educ ses mmse etiv nwbv asf : ℚ) : ℚ :=
  age * (4/100) + ses * 8 + (30 - mmse) * 3 + (1 - nwbv) * 60 + asf * 30

/-- Fallback engine of `HybridAlzheimerModel.predict` on an unpacked
7-feature vector (lines 119-173): severity/confidence/risk from the
continuous score, conditional raw probabilities, normalisation to 100
when the raw total is positive, and rounding at dict building.  The
severity tuple is (severity, confidence, risk_percentage, risk_level). -/
def fallback (age educ ses mmse etiv nwbv asf : ℚ) : HybridAlzResult :=
  let score := scoreOf age educ ses mmse etiv nwbv asf
  let sev : String × ℚ × ℚ × String :=
    if score > 120 then ("Severe", 89/100, 85, "High")
    else if score > 70 then ("Mild", 73/100, 60, "Medium")
    else ("Normal", 97/100, 15, "Low")
  let severity := sev.1
  let confidence := sev.2.1
  let risk_percentage := sev.2.2.1
  let risk_level := sev.2.2.2
  let normal_prob := (100 - risk_percentage) * (8/10)
  let mild_prob := if risk_percentage > 30 then risk_percentage * (4/10) else 10
  let moderate_prob := if risk_percentage > 60 then risk_percentage * (3/10) else 5
  let severe_prob := if risk_percentage > 80 then risk_percentage * (3/10) else 0
  let total := normal_prob + mild_prob + moderate_prob + severe_prob
  let normal_prob := if total > 0 then normal_prob / total * 100 else normal_prob
  let mild_prob := if total > 0 then mild_prob / total * 100 else mild_prob
  let moderate_prob := if total > 0 then moderate_prob / total * 100 else moderate_prob
  let severe_prob := if total > 0 then severe_prob / total * 100 else severe_prob
  { prediction := "Alzheimer Severity: " ++ severity
    risk_percentage := roundTo1 risk_percentage
    risk_level := risk_level
    severity_level := severity
    confidence := roundTo3 confidence
    mild_probability := roundTo1 mild_prob
    moderate_probability := roundTo1 moderate_prob
    severe_probability := roundTo1 severe_prob
    normal_probability := roundTo1 normal_prob
    model_used := "Hybrid Ensemble (Fallback Engine)"
    individual_xgboost := roundTo1 (confidence * 100)
    individual_ann := roundTo1 (confidence * 95)
    individual_rnn := roundTo1 (confidence * 91) }

/-- `HybridAlzheimerModel.predict` on a numeric feature list (the
repository never has a loaded ensemble, so the fallback engine always
runs): length repair, the `[float(x) for x in features]` conversion
(identity on rationals), then the fallback engine. -/
def predict (features : List ℚ) : HybridAlzResult :=
  let f := fitTo 7 features
  fallback (f.getD 0 0) (f.getD 1 0) (f.getD 2 0) (f.getD 3 0) (f.getD 4 0)
    (f.getD 5 0) (f.getD 6 0)

end HybridAlzheimerModel

namespace HybridHeartDiseaseModel

/-- Constant placeholder dict returned by `HybridHeartDiseaseModel.predict`
when `self.ensemble_model is None`
(src/models/hybrid_heart_model.py lines 241-250). -/
def notTrainedResult : HeartResult :=
  { prediction := "Model not trained"
    risk_percentage := 50
    risk_level := "Unknown"
    no_disease_probability := 50
    disease_probability := 50
    confidence := 0
    model_used := "Not Trained" }

/-- `HybridHeartDiseaseModel.predict` (lines 238-316): with no loaded
ensemble the constant placeholder is returned before any feature handling;
the trained path (scaling + ensemble `predict_proba`) is abstracted by the
`ensemble` parameter since no model artifact exists in the repository. -/
def predict (ensemble : Option (List ℚ → HeartResult)) (features : List ℚ) :
    HeartResult :=
  match ensemble with
  | none => notTrainedResult
  | some m => m (fitTo 13 features)

/-- Ensemble state after `__init__` (lines 41-53 with 55-69, 128-143):
model files present → load them; otherwise `train_model` runs, which
returns without creating an ensemble when the training dataset file is
absent, leaving `ensemble_model = None`. -/
def initEnsemble (modelFilesExist datasetExists : Bool)
    (loaded trained : Option (List ℚ → HeartResult)) :
    Option (List ℚ → HeartResult) :=
  if modelFilesExist then loaded
  else if datasetExists then trained
  else none

end HybridHeartDiseaseModel

/-- A Python value as it can reach the prediction layer: a number, a
numeric string (accepted by `float(.)`), or anything `float(.)` rejects
(`None`, non-numeric strings, containers, ...). -/
inductive PyVal where
  | num (q : ℚ)
  | numStr (q : ℚ)
  | other
deriving Repr, DecidableEq

/-- Python `float(v)`: succeeds on numbers and numeric strings, raises
`TypeError`/`ValueError` otherwise. -/
def PyVal.toFloat : PyVal → Option ℚ
  | num q => some q
  | numStr q => some q
  | other => none

/-- Python `v > c` for a numeric literal `c`: raises `TypeError` unless
`v` is a number. -/
def PyVal.gt (v : PyVal) (c : ℚ) : Except String Bool :=
  match v with
  | num q => .ok (decide (q > c))
  | _ => .error "TypeError: unorderable types"

/-- Python `v < c` for a numeric literal `c`: raises `TypeError` unless
`v` is a number. -/
def PyVal.lt (v : PyVal) (c : ℚ) : Except String Bool :=
  match v with
  | num q => .ok (decide (q < c))
  | _ => .error "TypeError: unorderable types"

/-- Python `v == c` for a numeric literal `c`: never raises; values of a
different type simply compare unequal. -/
def PyVal.eqNum (v : PyVal) (c : ℚ) : Bool :=
  match v with
  | num q => decide (q = c)
  | _ => false

/-- Python `r + v` for an accumulated numeric `r`: raises `TypeError`
unless `v` is a number. -/
def PyVal.addTo (r : ℚ) (v : PyVal) : Except String ℚ :=
  match v with
  | num q => .ok (r + q)
  | _ => .error "TypeError: unsupported operand types"

/-- The length repair on raw Python lists (same as `fitTo`, padding with
the Python number `0`). -/
def fitToPy (n : ℕ) (xs : List PyVal) : List PyVal :=
  if xs.length = n then xs
  else if xs.length < n then xs ++ List.replicate (n - xs.length) (.num 0)
  else xs.take n

/-- A three-threshold strictly-greater bucket
(`if v > t1: w1 elif v > t2: w2 elif v > t3: w3 else 0`) on a raw Python
value; raises on the first comparison if `v` is not a number. -/
def PyVal.bucketGt (v : PyVal) (t1 t2 t3 w1 w2 w3 : ℚ) : Except String ℚ :=
  match v with
  | num a => .ok (if a > t1 then w1 else if a > t2 then w2
      else if a > t3 then w3 else 0)
  | _ => .error "TypeError: unorderable types"

/-- A two-threshold strictly-less bucket
(`if v < t1: w1 elif v < t2: w2 else 0`) on a raw Python value. -/
def PyVal.bucketLt2 (v : PyVal) (t1 t2 w1 w2 : ℚ) : Except String ℚ :=
  match v with
  | num a => .ok (if a < t1 then w1 else if a < t2 then w2 else 0)
  | _ => .error "TypeError: unorderable types"

namespace SimpleHeartModel

/-- The `try` body of `SimpleHeartModel.predict` on raw Python values
(lines 60-181): length repair, tuple unpacking, then the rule-based
scoring statements in source order.  Each fallible Python operation
(an ordering comparison or `+=` with a non-number) is an `Except` step,
so the first raised exception aborts the body exactly as in Python;
`==` comparisons never raise. -/
def body (features : List PyVal) : Except String HeartResult := do
  let f := fitToPy 13 features
  let age := f.getD 0 (.num 0)
  let sex := f.getD 1 (.num 0)
  let cp := f.getD 2 (.num 0)
  let trestbps := f.getD 3 (.num 0)
  let chol := f.getD 4 (.num 0)
  let fbs := f.getD 5 (.num 0)
  let exang := f.getD 8 (.num 0)
  let oldpeak := f.getD 9 (.num 0)
  let ca := f.getD 11 (.num 0)
  let thal := f.getD 12 (.num 0)
  let r1 ← age.bucketGt 65 55 45 3 2 1
  let r2 := r1 + (if sex.eqNum 1 then 1 else 0)
  let r3 ← PyVal.addTo r2 cp
  let r4 ← (trestbps.bucketGt 160 140 120 3 2 1).map (r3 + ·)
  let r5 ← (chol.bucketGt 300 240 200 3 2 1).map (r4 + ·)
  let r6 := r5 + (if fbs.eqNum 1 then 1 else 0)
  let r7 := r6 + (if exang.eqNum 1 then 2 else 0)
  let r8 ← (oldpeak.bucketGt 2 1 (1/2) 3 2 1).map (r7 + ·)
  let r9 ← PyVal.addTo r8 ca
  let risk_score := r9 +
    (if thal.eqNum 3 then 2 else if thal.eqNum 6 then 1 else 0)
  .ok (resultOfRisk risk_score)

/-- `SimpleHeartModel.predict` on raw Python values: the `try` body with
its `except` clause, which absorbs every exception into the error-shaped
placeholder dict (lines 183-193). -/
def predictPy (features : List PyVal) : HeartResult :=
  match body features with
  | .ok r => r
  | .error _ => errorResult

end SimpleHeartModel

namespace SimpleAlzheimerModel

/-- The `try` body of `SimpleAlzheimerModel.predict` on raw Python values
(lines 69-214): length repair, tuple unpacking, the MMSE severity/score
branch, then the remaining score bands in source order, each fallible
comparison an `Except` step. -/
def body (features : List PyVal) : Except String AlzResult := do
  let f := fitToPy 7 features
  let age := f.getD 0 (.num 0)
  let educ := f.getD 1 (.num 0)
  let ses := f.getD 2 (.num 0)
  let mmse := f.getD 3 (.num 0)
  let etiv := f.getD 4 (.num 0)
  let nwbv := f.getD 5 (.num 0)
  let mmseStep : Except String (ℚ × String) ←
    match mmse with
    | .num m => pure (.ok (
        if m < 10 then ((4 : ℚ), "Severe")
        else if m < 18 then (3, "Moderate")
        else if m < 24 then (2, "Mild")
        else (0, "Normal")))
    | _ => pure (.error "TypeError: unorderable types")
  let ms ← mmseStep
  let predicted_severity := ms.2
  let r1 := ms.1
  let r2 ← (age.bucketGt 80 70 60 2 1 (1/2)).map (r1 + ·)
  let r3 ← (educ.bucketLt2 8 12 1 (1/2)).map (r2 + ·)
  let r4 ← (ses.bucketLt2 2 3 1 (1/2)).map (r3 + ·)
  let r5 ← (nwbv.lt (7/10)).map (fun b => r4 + if b then 1 else 0)
  let r6 ← (etiv.gt 1500).map (fun b => r5 + if b then 1/2 else 0)
  .ok (resultOf predicted_severity r6)

/-- `SimpleAlzheimerModel.predict` on raw Python values: the `try` body
with its `except` clause, which absorbs every exception into the
error-shaped placeholder dict (lines 216-229). -/
def predictPy (features : List PyVal) : AlzResult :=
  match body features with
  | .ok r => r
  | .error _ => errorResult

end SimpleAlzheimerModel

namespace PredictionRoute

/-- The HTTP 400 detail raised by `_normalize_payload`. -/
def validationDetail : String :=
  "Prediction payload must contain numeric values only"

/-- `_normalize_payload` (src/routes/prediction.py lines 32-43):
`[float(v) for v in payload.values()]`, where the first non-numeric value
aborts the whole conversion with an HTTP 400 signalling numeric-only. -/
def normalize_payload : List PyVal → Except String (List ℚ)
  | [] => .ok []
  | v :: vs =>
    match v.toFloat with
    | some q => (normalize_payload vs).map (q :: ·)
    | none => .error validationDetail

/-- The `/predict/heart` route body up to the model call (lines 72-81):
payload normalisation, then `predict_heart_disease` on the hybrid model.
Document building and persistence are the excluded HTTP/database layer. -/
def heart (ensemble : Option (List ℚ → HeartResult)) (payload : List PyVal) :
    Except String HeartResult :=
  (normalize_payload payload).map (HybridHeartDiseaseModel.predict ensemble)

/-- The `/predict/alzheimer` route body up to the model call
(lines 101-110): payload normalisation, then `predict_alzheimer_disease`
on the hybrid model. -/
def alzheimer (payload : List PyVal) : Except String HybridAlzResult :=
  (normalize_payload payload).map HybridAlzheimerModel.predict

end PredictionRoute

/-- Python `str.lower()` restricted to ASCII (all keyword tables and
pattern literals are ASCII): map each character to lower case. -/
def pyLower (s : String) : String := ⟨s.data.map Char.toLower⟩

/-- Python substring containment `needle in haystack`, on character
lists. -/
def containsSub (needle : List Char) : List Char → Bool
  | [] => needle.isEmpty
  | c :: t => needle.isPrefixOf (c :: t) || containsSub needle t

/-- Python `needle in haystack` on strings. -/
def pyIn (needle hay : String) : Bool := containsSub needle.toList hay.toList

/-- The condition → keyword table of `detect_medical_condition`
(src/utils/medicine_service.py lines 407-453), in source enumeration
order. -/
def conditions : List (String × List String) :=
  [ ("diabetes",
     ["diabetes", "diabetic", "blood sugar", "glucose", "insulin",
      "hyperglycemia", "hypoglycemia", "a1c", "hba1c", "type 1", "type 2",
      "diabetic ketoacidosis", "diabetic neuropathy"]),
    ("heart_disease",
     ["heart", "cardiac", "chest pain", "angina", "heart attack",
      "cardiovascular", "myocardial infarction", "coronary", "arrhythmia",
      "atrial fibrillation", "heart failure", "cardiac arrest"]),
    ("hypertension",
     ["blood pressure", "hypertension", "high bp", "hypertensive",
      "elevated blood pressure", "systolic", "diastolic"]),
    ("alzheimer",
     ["alzheimer", "dementia", "memory loss", "cognitive", "forgetfulness",
      "confusion", "cognitive decline", "memory problems",
      "alzheimer" ++ apos ++ "s"]),
    ("depression",
     ["depression", "depressed", "sad", "anxiety", "mental health",
      "mood", "suicidal", "hopeless", "worthless", "guilt", "fatigue",
      "concentration problems", "sleep problems"]),
    ("asthma",
     ["asthma", "wheezing", "shortness of breath", "chest tightness",
      "coughing", "breathing problems", "respiratory", "bronchospasm"]),
    ("fever",
     ["fever", "high temperature", "pyrexia", "hot", "burning", "chills",
      "sweating", "body temperature", "febrile"]),
    ("cough_cold",
     ["cough", "cold", "flu", "influenza", "sore throat", "runny nose",
      "congestion", "nasal", "sneezing", "phlegm", "mucus",
      "chest congestion", "upper respiratory", "viral infection",
      "common cold"]),
    ("headache",
     ["headache", "head pain", "migraine", "tension", "throbbing",
      "pounding", "head ache", "cephalgia"]),
    ("stomach_issues",
     ["stomach", "stomachache", "stomach pain", "abdominal pain",
      "belly pain", "indigestion", "upset stomach", "nausea", "vomiting",
      "diarrhea", "constipation", "gastric", "gastrointestinal"]) ]

/-- Per-category keyword counts on the lower-cased prompt
(`score = sum(1 for keyword in keywords if keyword in prompt_lower)`),
in enumeration order. -/
def conditionScores (prompt : String) : List (String × ℕ) :=
  let prompt_lower := pyLower prompt
  conditions.map (fun c => (c.1, (c.2.filter (fun k => pyIn k prompt_lower)).length))

/-- Python `max(iterable, key=...)` keeps the current item unless a later
one is strictly greater, so the first maximal element wins. -/
def firstMax (b : String × ℕ) : List (String × ℕ) → String × ℕ
  | [] => b
  | p :: l => firstMax (if p.2 > b.2 then p else b) l

/-- Python `max` over a possibly empty association list. -/
def pyMax : List (String × ℕ) → Option (String × ℕ)
  | [] => none
  | h :: t => some (firstMax h t)

/-- `detect_medical_condition` (src/utils/medicine_service.py lines
402-466): keep only categories with positive score (`if score > 0`),
then `max(condition_scores, key=condition_scores.get)` — the first entry
attaining the maximal score in insertion (enumeration) order — and
`None` when no category matched at all. -/
def detect_medical_condition (prompt : String) : Option String :=
  (pyMax ((conditionScores prompt).filter (fun p => decide (0 < p.2)))).map
    Prod.fst

/-- The spec's description of the winning category: the first-seen
category in enumeration order attaining the maximal keyword count, over
all categories (zero scores included). -/
def specFirstArgmax (prompt : String) : Option String :=
  (pyMax (conditionScores prompt)).map Prod.fst

/-- Emergency patterns of `process_medical_chat`
(src/models/advanced_ai_chat.py lines 222-229); each regex is an
alternation of literals, so `re.search` is substring containment of one
alternative. -/
def emergency_patterns : List (List String) :=
  [ ["heart attack", "chest pain", "severe chest", "crushing chest"],
    ["stroke", "facial droop", "slurred speech", "weakness on one side"],
    ["can" ++ apos ++ "t breathe", "difficulty breathing", "choking",
     "suffocating"],
    ["unconscious", "passed out", "fainted", "not responding"],
    ["severe bleeding", "heavy bleeding", "bleeding won" ++ apos ++ "t stop"],
    ["suicidal", "want to die", "harm myself"] ]

/-- Urgent patterns of `process_medical_chat` (lines 231-237). -/
def urgent_patterns : List (List String) :=
  [ ["high fever", "fever over 103", "fever with rash"],
    ["severe headache", "worst headache", "thunderclap headache"],
    ["severe abdominal pain", "acute abdomen"],
    ["severe allergic reaction", "anaphylaxis"],
    ["severe dehydration", "can" ++ apos ++ "t keep fluids down"] ]

/-- `any(re.search(pattern, message_lower) for pattern in patterns)`. -/
def patternMatches (pats : List (List String)) (message_lower : String) :
    Bool :=
  pats.any (fun alts => alts.any (fun lit => pyIn lit message_lower))

/-- Urgency classification of `process_medical_chat`
(src/models/advanced_ai_chat.py lines 219-243): emergency patterns are
checked first, then urgent patterns, else "normal"; independent of the
category keyword tables. -/
def urgencyOf (message : String) : String :=
  let message_lower := pyLower message
  if patternMatches emergency_patterns message_lower then "emergency"
  else if patternMatches urgent_patterns message_lower then "urgent"
  else "normal"


/-! ## Helper lemmas -/

theorem abs_roundTo1_sub (q : ℚ) : |roundTo1 q - q| ≤ 1 / 20 := by
  have h : |(10 : ℚ) * q - round (10 * q)| ≤ 1 / 2 := abs_sub_round (10 * q)
  rw [abs_sub_comm] at h
  have heq : roundTo1 q - q = ((round (10 * q) : ℤ) - 10 * q) / 10 := by
    rw [roundTo1]; ring
  rw [heq, abs_div]
  rw [show |(10 : ℚ)| = 10 by norm_num]
  linarith

theorem sum2_roundTo1_close (a b s : ℚ) (h : a + b = s) :
    |roundTo1 a + roundTo1 b - s| ≤ 1 / 5 := by
  have ha := abs_roundTo1_sub a
  have hb := abs_roundTo1_sub b
  have heq : roundTo1 a + roundTo1 b - s
      = (roundTo1 a - a) + (roundTo1 b - b) := by rw [← h]; ring
  rw [heq]
  calc |(roundTo1 a - a) + (roundTo1 b - b)|
      ≤ |roundTo1 a - a| + |roundTo1 b - b| := abs_add _ _
    _ ≤ 1 / 5 := by linarith

theorem sum4_roundTo1_close (a b c d s : ℚ) (h : a + b + c + d = s) :
    |roundTo1 a + roundTo1 b + roundTo1 c + roundTo1 d - s| ≤ 1 / 5 := by
  have ha := abs_roundTo1_sub a
  have hb := abs_roundTo1_sub b
  have hc := abs_roundTo1_sub c
  have hd := abs_roundTo1_sub d
  have heq : roundTo1 a + roundTo1 b + roundTo1 c + roundTo1 d - s
      = ((roundTo1 a - a) + (roundTo1 b - b)) + ((roundTo1 c - c) + (roundTo1 d - d)) := by
    rw [← h]; ring
  rw [heq]
  calc |((roundTo1 a - a) + (roundTo1 b - b)) + ((roundTo1 c - c) + (roundTo1 d - d))|
      ≤ |(roundTo1 a - a) + (roundTo1 b - b)| + |(roundTo1 c - c) + (roundTo1 d - d)| :=
        abs_add _ _
    _ ≤ (|roundTo1 a - a| + |roundTo1 b - b|) + (|roundTo1 c - c| + |roundTo1 d - d|) := by
        gcongr <;> exact abs_add _ _
    _ ≤ 1 / 5 := by linarith

theorem fitTo_length (n : ℕ) (xs : List ℚ) : (fitTo n xs).length = n := by
  unfold fitTo
  split_ifs with h1 h2
  · exact h1
  · simp only [List.length_append, List.length_replicate]
    omega
  · simp only [List.length_take]
    omega

theorem fitTo_of_length_eq {n : ℕ} {xs : List ℚ} (h : xs.length = n) :
    fitTo n xs = xs := by
  unfold fitTo; rw [if_pos h]

theorem fitTo_pad {n : ℕ} {xs : List ℚ} (h : xs.length < n) :
    fitTo n xs = xs ++ List.replicate (n - xs.length) 0 := by
  unfold fitTo; rw [if_neg (by omega), if_pos h]

theorem fitTo_trunc {n : ℕ} {xs : List ℚ} (h : n < xs.length) :
    fitTo n xs = xs.take n := by
  unfold fitTo; rw [if_neg (by omega), if_neg (by omega)]

/-! ## Claim theorems -/

/-- C6: for every numeric feature vector of the wrong length, prediction
does not fail: shorter inputs are zero-padded on the right, longer inputs
are truncated to the expected length (13 for heart, 7 for Alzheimer), and
the result is the normal rule-based result shape, not the error shape. -/
theorem claimC6_length_repair (xs : List ℚ) :
    (xs.length < 13 →
      SimpleHeartModel.predict xs
        = SimpleHeartModel.predict (xs ++ List.replicate (13 - xs.length) 0)) ∧
    (13 < xs.length →
      SimpleHeartModel.predict xs = SimpleHeartModel.predict (xs.take 13)) ∧
    (SimpleHeartModel.predict xs).model_used = "Rule-Based Analysis" ∧
    (xs.length < 7 →
      HybridAlzheimerModel.predict xs
        = HybridAlzheimerModel.predict (xs ++ List.replicate (7 - xs.length) 0)) ∧
    (7 < xs.length →
      HybridAlzheimerModel.predict xs = HybridAlzheimerModel.predict (xs.take 7)) ∧
    (HybridAlzheimerModel.predict xs).model_used = "Hybrid Ensemble (Fallback Engine)" := by
  refine ⟨?_, ?_, rfl, ?_, ?_, rfl⟩
  · intro h
    have hlen : (xs ++ List.replicate (13 - xs.length) 0).length = 13 := by
      simp only [List.length_append, List.length_replicate]
      omega
    unfold SimpleHeartModel.predict
    rw [fitTo_pad h, fitTo_of_length_eq hlen]
  · intro h
    have hlen : (xs.take 13).length = 13 := by
      simp only [List.length_take]
      omega
    unfold SimpleHeartModel.predict
    rw [fitTo_trunc h, fitTo_of_length_eq hlen]
  · intro h
    have hlen : (xs ++ List.replicate (7 - xs.length) 0).length = 7 := by
      simp only [List.length_append, List.length_replicate]
      omega
    unfold HybridAlzheimerModel.predict
    rw [fitTo_pad h, fitTo_of_length_eq hlen]
  · intro h
    have hlen : (xs.take 7).length = 7 := by
      simp only [List.length_take]
      omega
    unfold HybridAlzheimerModel.predict
    rw [fitTo_trunc h, fitTo_of_length_eq hlen]

/-- Witness for C6: a 2-element heart vector is scored as its zero-padding
to 13 entries, and a 8-element Alzheimer vector as its truncation to 7. -/
theorem claimC6_length_repair_witness :
    SimpleHeartModel.predict [1, 2]
      = SimpleHeartModel.predict ([1, 2] ++ List.replicate (13 - [1, 2].length) 0) ∧
    HybridAlzheimerModel.predict [1, 2, 3, 4, 5, 6, 7, 8]
      = HybridAlzheimerModel.predict ([1, 2, 3, 4, 5, 6, 7, 8].take 7) :=
  ⟨(claimC6_length_repair [1, 2]).1 (by norm_num),
   (claimC6_length_repair [1, 2, 3, 4, 5, 6, 7, 8]).2.2.2.2.1 (by norm_num)⟩

/-- C7 counterexample: the heart rule-based engine returns confidence
85.0 (a percentage), not 0.85, already on the all-zero vector. -/
theorem claimC7_counterexample :
    (SimpleHeartModel.predict (List.replicate 13 0)).confidence = 85 ∧
    (SimpleHeartModel.predict (List.replicate 13 0)).confidence ≠ 17 / 20 := by
  have h : (SimpleHeartModel.predict (List.replicate 13 0)).confidence = 85 := by
    show roundTo1 85 = 85
    norm_num [roundTo1, round_eq]
  exact ⟨h, by rw [h]; norm_num⟩

/-- C7 amended: in the absence of a trained model the heart rule-based
engine returns the static placeholder confidence 85.0 (percent scale) for
every input, never computed from the data. -/
theorem claimC7_amended (xs : List ℚ) :
    (SimpleHeartModel.predict xs).confidence = 85 := by
  show roundTo1 85 = 85
  norm_num [roundTo1, round_eq]

/-- C9: with no loaded ensemble (the state reached when both the model
files and the training dataset are absent), `HybridHeartDiseaseModel.predict`
returns the same constant placeholder for every input — prediction
"Model not trained", risk 50, level "Unknown", confidence 0.0 — so no
scoring formula runs on this path. -/
theorem claimC9_not_trained (loaded trained : Option (List ℚ → HeartResult))
    (xs ys : List ℚ) :
    HybridHeartDiseaseModel.initEnsemble false false loaded trained = none ∧
    HybridHeartDiseaseModel.predict none xs
      = HybridHeartDiseaseModel.notTrainedResult ∧
    HybridHeartDiseaseModel.predict none xs
      = HybridHeartDiseaseModel.predict none ys ∧
    HybridHeartDiseaseModel.notTrainedResult.prediction = "Model not trained" ∧
    HybridHeartDiseaseModel.notTrainedResult.risk_percentage = 50 ∧
    HybridHeartDiseaseModel.notTrainedResult.risk_level = "Unknown" ∧
    HybridHeartDiseaseModel.notTrainedResult.confidence = 0 :=
  ⟨rfl, rfl, rfl, rfl, rfl, rfl, rfl⟩

/-- C10: in the rule-based Alzheimer fallback, `severity_level` is a
function of the MMSE feature (index 3) alone: two length-7 vectors that
agree on MMSE get the same severity, and the severity is exactly the
MMSE bucketing Severe / Moderate / Mild / Normal. -/
theorem claimC10_severity_mmse_only (xs ys : List ℚ)
    (hx : xs.length = 7) (hy : ys.length = 7)
    (hm : xs.getD 3 0 = ys.getD 3 0) :
    (SimpleAlzheimerModel.predict xs).severity_level
      = (SimpleAlzheimerModel.predict ys).severity_level ∧
    (SimpleAlzheimerModel.predict xs).severity_level
      = SimpleAlzheimerModel.severityOf (xs.getD 3 0) ∧
    SimpleAlzheimerModel.severityOf (xs.getD 3 0)
      = (if xs.getD 3 0 < 10 then "Severe"
         else if xs.getD 3 0 < 18 then "Moderate"
         else if xs.getD 3 0 < 24 then "Mild" else "Normal") := by
  have hxs : (SimpleAlzheimerModel.predict xs).severity_level
      = SimpleAlzheimerModel.severityOf ((fitTo 7 xs).getD 3 0) := rfl
  have hys : (SimpleAlzheimerModel.predict ys).severity_level
      = SimpleAlzheimerModel.severityOf ((fitTo 7 ys).getD 3 0) := rfl
  refine ⟨?_, ?_, rfl⟩
  · rw [hxs, hys, fitTo_of_length_eq hx, fitTo_of_length_eq hy, hm]
  · rw [hxs, fitTo_of_length_eq hx]

/-- Witness for C10: two length-7 vectors differing everywhere except
MMSE = 20 get the same severity, "Mild". -/
theorem claimC10_severity_mmse_only_witness :
    (SimpleAlzheimerModel.predict [1, 2, 3, 20, 5, 6, 7]).severity_level
      = (SimpleAlzheimerModel.predict [90, 4, 1, 20, 1600, 1/2, 1]).severity_level ∧
    (SimpleAlzheimerModel.predict [1, 2, 3, 20, 5, 6, 7]).severity_level
      = SimpleAlzheimerModel.severityOf 20 :=
  ⟨(claimC10_severity_mmse_only [1, 2, 3, 20, 5, 6, 7] [90, 4, 1, 20, 1600, 1/2, 1]
      rfl rfl rfl).1,
   (claimC10_severity_mmse_only [1, 2, 3, 20, 5, 6, 7] [90, 4, 1, 20, 1600, 1/2, 1]
      rfl rfl rfl).2.1⟩

/-- C1 counterexample: on the feature vector
`[70,1,3,165,310,1,1,140,1,2.5,2,2,3]` the rule-based heart engine
computes risk_score 23, so the spec's asserted bound `risk_score ≥ 26`
is false (the listed contributions 3+1+3+3+3+1+2+3+2+2 sum to 23,
not 26). -/
theorem claimC1_counterexample :
    SimpleHeartModel.riskScore [70, 1, 3, 165, 310, 1, 1, 140, 1, 2.5, 2, 2, 3] = 23 ∧
    ¬ (26 : ℚ) ≤ SimpleHeartModel.riskScore [70, 1, 3, 165, 310, 1, 1, 140, 1, 2.5, 2, 2, 3] := by
  have h : SimpleHeartModel.riskScore [70, 1, 3, 165, 310, 1, 1, 140, 1, 2.5, 2, 2, 3] = 23 := by
    norm_num [SimpleHeartModel.riskScore, SimpleHeartModel.riskScoreOf, fitTo]
  exact ⟨h, by rw [h]; norm_num⟩

/-- C1 amended: on `[70,1,3,165,310,1,1,140,1,2.5,2,2,3]` the rule-based
heart engine computes risk_score 23 (= 3+1+3+3+3+1+2+3+2+2), and after
capping, disease_probability = 95, risk_level = "High", and the label is
"Heart Disease Detected". -/
theorem claimC1_amended :
    SimpleHeartModel.riskScore [70, 1, 3, 165, 310, 1, 1, 140, 1, 2.5, 2, 2, 3] = 23 ∧
    (SimpleHeartModel.predict [70, 1, 3, 165, 310, 1, 1, 140, 1, 2.5, 2, 2, 3]).disease_probability = 95 ∧
    (SimpleHeartModel.predict [70, 1, 3, 165, 310, 1, 1, 140, 1, 2.5, 2, 2, 3]).risk_level = "High" ∧
    (SimpleHeartModel.predict [70, 1, 3, 165, 310, 1, 1, 140, 1, 2.5, 2, 2, 3]).prediction
      = "Heart Disease Detected" := by
  refine ⟨?_, ?_, ?_, ?_⟩ <;>
    norm_num [SimpleHeartModel.riskScore, SimpleHeartModel.predict,
      SimpleHeartModel.rule, SimpleHeartModel.resultOfRisk,
      SimpleHeartModel.riskScoreOf, fitTo, roundTo1, round_eq]

theorem heartSum_close (q : ℚ) :
    |(SimpleHeartModel.resultOfRisk q).no_disease_probability
      + (SimpleHeartModel.resultOfRisk q).disease_probability - 100| ≤ 1 / 5 := by
  show |roundTo1 (100 - min (q / 20 * 100) 95) + roundTo1 (min (q / 20 * 100) 95) - 100| ≤ 1 / 5
  exact sum2_roundTo1_close _ _ _ (by ring)

theorem alzSum_severe (q : ℚ) :
    |(SimpleAlzheimerModel.resultOf "Severe" q).mild_probability
      + (SimpleAlzheimerModel.resultOf "Severe" q).moderate_probability
      + (SimpleAlzheimerModel.resultOf "Severe" q).severe_probability
      + (SimpleAlzheimerModel.resultOf "Severe" q).normal_probability - 100| ≤ 1 / 5 := by
  show |roundTo1 0 + roundTo1 0 + roundTo1 (min (q / 10 * 100) 95)
      + roundTo1 (100 - min (q / 10 * 100) 95) - 100| ≤ 1 / 5
  exact sum4_roundTo1_close _ _ _ _ _ (by ring)

theorem alzSum_moderate (q : ℚ) :
    |(SimpleAlzheimerModel.resultOf "Moderate" q).mild_probability
      + (SimpleAlzheimerModel.resultOf "Moderate" q).moderate_probability
      + (SimpleAlzheimerModel.resultOf "Moderate" q).severe_probability
      + (SimpleAlzheimerModel.resultOf "Moderate" q).normal_probability - 100| ≤ 1 / 5 := by
  show |roundTo1 0 + roundTo1 (min (q / 10 * 100) 95 * (7/10))
      + roundTo1 (min (q / 10 * 100) 95 * (3/10))
      + roundTo1 (100 - min (q / 10 * 100) 95) - 100| ≤ 1 / 5
  exact sum4_roundTo1_close _ _ _ _ _ (by ring)

theorem alzSum_mild (q : ℚ) :
    |(SimpleAlzheimerModel.resultOf "Mild" q).mild_probability
      + (SimpleAlzheimerModel.resultOf "Mild" q).moderate_probability
      + (SimpleAlzheimerModel.resultOf "Mild" q).severe_probability
      + (SimpleAlzheimerModel.resultOf "Mild" q).normal_probability - 100| ≤ 1 / 5 := by
  show |roundTo1 (min (q / 10 * 100) 95 * (8/10))
      + roundTo1 (min (q / 10 * 100) 95 * (2/10)) + roundTo1 0
      + roundTo1 (100 - min (q / 10 * 100) 95) - 100| ≤ 1 / 5
  exact sum4_roundTo1_close _ _ _ _ _ (by ring)

theorem alzSum_normal (q : ℚ) :
    |(SimpleAlzheimerModel.resultOf "Normal" q).mild_probability
      + (SimpleAlzheimerModel.resultOf "Normal" q).moderate_probability
      + (SimpleAlzheimerModel.resultOf "Normal" q).severe_probability
      + (SimpleAlzheimerModel.resultOf "Normal" q).normal_probability
      - (100 - (9/10) * min (q / 10 * 100) 95)| ≤ 1 / 5 := by
  show |roundTo1 (min (q / 10 * 100) 95 * (1/10)) + roundTo1 0 + roundTo1 0
      + roundTo1 (100 - min (q / 10 * 100) 95)
      - (100 - (9/10) * min (q / 10 * 100) 95)| ≤ 1 / 5
  exact sum4_roundTo1_close _ _ _ _ _ (by ring)

theorem hybridAlzSum_close (age educ ses mmse etiv nwbv asf : ℚ) :
    |(HybridAlzheimerModel.fallback age educ ses mmse etiv nwbv asf).mild_probability
      + (HybridAlzheimerModel.fallback age educ ses mmse etiv nwbv asf).moderate_probability
      + (HybridAlzheimerModel.fallback age educ ses mmse etiv nwbv asf).severe_probability
      + (HybridAlzheimerModel.fallback age educ ses mmse etiv nwbv asf).normal_probability
      - 100| ≤ 1 / 5 := by
  simp only [HybridAlzheimerModel.fallback]
  by_cases h1 : HybridAlzheimerModel.scoreOf age educ ses mmse etiv nwbv asf > 120
  · rw [if_pos h1]
    norm_num [roundTo1, round_eq, abs_le]
  · rw [if_neg h1]
    by_cases h2 : HybridAlzheimerModel.scoreOf age educ ses mmse etiv nwbv asf > 70
    · rw [if_pos h2]
      norm_num [roundTo1, round_eq, abs_le]
    · rw [if_neg h2]
      norm_num [roundTo1, round_eq, abs_le]

/-- C2 counterexample: in the Normal-severity branch of the simple
Alzheimer fallback the probabilities do not sum to 100: on
`[85,5,1,30,1600,0.6,1]` (MMSE 30 → Normal, risk 55) they sum to 50.5,
off by 49.5, far beyond the 0.2 tolerance. -/
theorem claimC2_counterexample :
    (SimpleAlzheimerModel.predict [85, 5, 1, 30, 1600, 3/5, 1]).mild_probability
      + (SimpleAlzheimerModel.predict [85, 5, 1, 30, 1600, 3/5, 1]).moderate_probability
      + (SimpleAlzheimerModel.predict [85, 5, 1, 30, 1600, 3/5, 1]).severe_probability
      + (SimpleAlzheimerModel.predict [85, 5, 1, 30, 1600, 3/5, 1]).normal_probability
      = 101 / 2 ∧
    ¬ |(SimpleAlzheimerModel.predict [85, 5, 1, 30, 1600, 3/5, 1]).mild_probability
      + (SimpleAlzheimerModel.predict [85, 5, 1, 30, 1600, 3/5, 1]).moderate_probability
      + (SimpleAlzheimerModel.predict [85, 5, 1, 30, 1600, 3/5, 1]).severe_probability
      + (SimpleAlzheimerModel.predict [85, 5, 1, 30, 1600, 3/5, 1]).normal_probability
      - 100| ≤ 1 / 5 := by
  have h : (SimpleAlzheimerModel.predict [85, 5, 1, 30, 1600, 3/5, 1]).mild_probability
      + (SimpleAlzheimerModel.predict [85, 5, 1, 30, 1600, 3/5, 1]).moderate_probability
      + (SimpleAlzheimerModel.predict [85, 5, 1, 30, 1600, 3/5, 1]).severe_probability
      + (SimpleAlzheimerModel.predict [85, 5, 1, 30, 1600, 3/5, 1]).normal_probability
      = 101 / 2 := by
    have hNS : ¬ ("Normal" : String) = "Severe" := by decide
    have hNM : ¬ ("Normal" : String) = "Moderate" := by decide
    have hNMi : ¬ ("Normal" : String) = "Mild" := by decide
    norm_num [SimpleAlzheimerModel.predict, SimpleAlzheimerModel.rule,
      SimpleAlzheimerModel.resultOf, SimpleAlzheimerModel.severityOf,
      SimpleAlzheimerModel.riskScoreOf, fitTo, roundTo1, round_eq,
      hNS, hNM, hNMi]
  refine ⟨h, ?_⟩
  rw [h, abs_le]
  push_neg
  intro hcontra
  linarith

/-- C2 amended: probability breakdowns sum to 100 (within the rounding
tolerance 0.2) on the heart path, the hybrid Alzheimer path, and the
Severe / Moderate / Mild branches of the simple Alzheimer fallback; in
the Normal-severity branch of the simple Alzheimer fallback the sum is
instead 100 − 0.9·risk_percentage (within the same tolerance). -/
theorem claimC2_amended (xs ys zs : List ℚ) :
    |(SimpleHeartModel.predict xs).no_disease_probability
      + (SimpleHeartModel.predict xs).disease_probability - 100| ≤ 1 / 5 ∧
    |(HybridAlzheimerModel.predict ys).mild_probability
      + (HybridAlzheimerModel.predict ys).moderate_probability
      + (HybridAlzheimerModel.predict ys).severe_probability
      + (HybridAlzheimerModel.predict ys).normal_probability - 100| ≤ 1 / 5 ∧
    |(SimpleAlzheimerModel.predict zs).mild_probability
      + (SimpleAlzheimerModel.predict zs).moderate_probability
      + (SimpleAlzheimerModel.predict zs).severe_probability
      + (SimpleAlzheimerModel.predict zs).normal_probability
      - (if (SimpleAlzheimerModel.predict zs).severity_level = "Normal"
         then 100 - (9/10) * SimpleAlzheimerModel.riskPercentage zs
         else 100)| ≤ 1 / 5 := by
  refine ⟨heartSum_close _, hybridAlzSum_close _ _ _ _ _ _ _, ?_⟩
  have hpred : SimpleAlzheimerModel.predict zs
      = SimpleAlzheimerModel.resultOf
          (SimpleAlzheimerModel.severityOf ((fitTo 7 zs).getD 3 0))
          (SimpleAlzheimerModel.riskScoreOf ((fitTo 7 zs).getD 0 0)
            ((fitTo 7 zs).getD 1 0) ((fitTo 7 zs).getD 2 0) ((fitTo 7 zs).getD 3 0)
            ((fitTo 7 zs).getD 4 0) ((fitTo 7 zs).getD 5 0) ((fitTo 7 zs).getD 6 0)) := rfl
  have hrp : SimpleAlzheimerModel.riskPercentage zs
      = min (SimpleAlzheimerModel.riskScoreOf ((fitTo 7 zs).getD 0 0)
          ((fitTo 7 zs).getD 1 0) ((fitTo 7 zs).getD 2 0) ((fitTo 7 zs).getD 3 0)
          ((fitTo 7 zs).getD 4 0) ((fitTo 7 zs).getD 5 0) ((fitTo 7 zs).getD 6 0)
          / 10 * 100) 95 := rfl
  have hsev : ∀ (s : String) (q : ℚ),
      (SimpleAlzheimerModel.resultOf s q).severity_level = s := fun _ _ => rfl
  rw [hpred, hrp]
  unfold SimpleAlzheimerModel.severityOf
  by_cases h1 : (fitTo 7 zs).getD 3 0 < 10
  · rw [if_pos h1, hsev, if_neg (by decide : ¬ ("Severe" : String) = "Normal")]
    exact alzSum_severe _
  · rw [if_neg h1]
    by_cases h2 : (fitTo 7 zs).getD 3 0 < 18
    · rw [if_pos h2, hsev, if_neg (by decide : ¬ ("Moderate" : String) = "Normal")]
      exact alzSum_moderate _
    · rw [if_neg h2]
      by_cases h3 : (fitTo 7 zs).getD 3 0 < 24
      · rw [if_pos h3, hsev, if_neg (by decide : ¬ ("Mild" : String) = "Normal")]
        exact alzSum_mild _
      · rw [if_neg h3, hsev, if_pos (rfl : ("Normal" : String) = "Normal")]
        exact alzSum_normal _

theorem normalize_payload_error {payload : List PyVal} (h : PyVal.other ∈ payload) :
    PredictionRoute.normalize_payload payload
      = .error PredictionRoute.validationDetail := by
  induction payload with
  | nil => cases h
  | cons v vs ih =>
    cases v with
    | num q =>
      have hvs : PyVal.other ∈ vs := by
        rcases List.mem_cons.mp h with h1 | h2
        · cases h1
        · exact h2
      simp only [PredictionRoute.normalize_payload, PyVal.toFloat]
      rw [ih hvs]
      rfl
    | numStr q =>
      have hvs : PyVal.other ∈ vs := by
        rcases List.mem_cons.mp h with h1 | h2
        · cases h1
        · exact h2
      simp only [PredictionRoute.normalize_payload, PyVal.toFloat]
      rw [ih hvs]
      rfl
    | other => rfl

/-- C3: every payload containing a non-numeric entry is rejected by
`_normalize_payload` with the HTTP 400 "numeric values only" validation
error, and both prediction routes propagate exactly that error — the
model is never invoked, so no scoring arithmetic runs on such input. -/
theorem claimC3_validation (ensemble : Option (List ℚ → HeartResult))
    (payload : List PyVal) (h : PyVal.other ∈ payload) :
    PredictionRoute.normalize_payload payload
      = .error PredictionRoute.validationDetail ∧
    PredictionRoute.heart ensemble payload
      = .error PredictionRoute.validationDetail ∧
    PredictionRoute.alzheimer payload
      = .error PredictionRoute.validationDetail := by
  have hn := normalize_payload_error h
  refine ⟨hn, ?_, ?_⟩
  · unfold PredictionRoute.heart
    rw [hn]
    rfl
  · unfold PredictionRoute.alzheimer
    rw [hn]
    rfl

/-- Witness for C3: a payload with a numeric entry followed by a
non-numeric one is rejected by both routes. -/
theorem claimC3_validation_witness :
    PredictionRoute.normalize_payload [PyVal.num 3, PyVal.other]
      = .error PredictionRoute.validationDetail ∧
    PredictionRoute.heart none [PyVal.num 3, PyVal.other]
      = .error PredictionRoute.validationDetail ∧
    PredictionRoute.alzheimer [PyVal.num 3, PyVal.other]
      = .error PredictionRoute.validationDetail :=
  claimC3_validation none [PyVal.num 3, PyVal.other]
    (List.mem_cons_of_mem _ (List.mem_singleton.mpr rfl))

/-- C8: any exception raised inside the scoring body (after input
normalisation) is absorbed by the `except` clause: the engine returns the
fixed error-shaped result — risk 50, risk_level "Unknown", confidence
0 — instead of propagating, for both the heart and the Alzheimer simple
engines. -/
theorem claimC8_exceptions_absorbed :
    (∀ (xs : List PyVal) (e : String),
      SimpleHeartModel.body xs = .error e →
        SimpleHeartModel.predictPy xs = SimpleHeartModel.errorResult) ∧
    (∀ (xs : List PyVal) (e : String),
      SimpleAlzheimerModel.body xs = .error e →
        SimpleAlzheimerModel.predictPy xs = SimpleAlzheimerModel.errorResult) ∧
    SimpleHeartModel.errorResult.risk_level = "Unknown" ∧
    SimpleHeartModel.errorResult.risk_percentage = 50 ∧
    SimpleHeartModel.errorResult.disease_probability = 50 ∧
    SimpleHeartModel.errorResult.no_disease_probability = 50 ∧
    SimpleAlzheimerModel.errorResult.risk_level = "Unknown" ∧
    SimpleAlzheimerModel.errorResult.risk_percentage = 50 := by
  refine ⟨?_, ?_, rfl, rfl, rfl, rfl, rfl, rfl⟩
  · intro xs e h
    unfold SimpleHeartModel.predictPy
    rw [h]
  · intro xs e h
    unfold SimpleAlzheimerModel.predictPy
    rw [h]

/-- Witness for C8: a singleton payload holding a non-numeric value makes
the first ordering comparison raise, and both engines return their fixed
error dicts. -/
theorem claimC8_exceptions_absorbed_witness :
    SimpleHeartModel.body [PyVal.other] = .error "TypeError: unorderable types" ∧
    SimpleHeartModel.predictPy [PyVal.other] = SimpleHeartModel.errorResult ∧
    SimpleAlzheimerModel.body [PyVal.other] = .error "TypeError: unorderable types" ∧
    SimpleAlzheimerModel.predictPy [PyVal.other] = SimpleAlzheimerModel.errorResult :=
  ⟨rfl, claimC8_exceptions_absorbed.1 [PyVal.other] "TypeError: unorderable types" rfl,
   rfl, claimC8_exceptions_absorbed.2.1 [PyVal.other] "TypeError: unorderable types" rfl⟩

theorem firstMax_filter_pos (l : List (String × ℕ)) (b : String × ℕ) (hb : 0 < b.2) :
    firstMax b (l.filter (fun p => decide (0 < p.2))) = firstMax b l := by
  induction l generalizing b with
  | nil => rfl
  | cons p t ih =>
    by_cases hp : 0 < p.2
    · rw [List.filter_cons_of_pos (by simpa using hp)]
      show firstMax (if p.2 > b.2 then p else b) (t.filter _)
          = firstMax (if p.2 > b.2 then p else b) t
      by_cases hgt : p.2 > b.2
      · rw [if_pos hgt]
        exact ih p hp
      · rw [if_neg hgt]
        exact ih b hb
    · rw [List.filter_cons_of_neg (by simpa using hp)]
      have hngt : ¬ p.2 > b.2 := fun hgt => hp (lt_trans hb hgt)
      show firstMax b (t.filter _) = firstMax (if p.2 > b.2 then p else b) t
      rw [if_neg hngt]
      exact ih b hb

theorem firstMax_of_zero_acc (t : List (String × ℕ)) (b : String × ℕ)
    (hb : b.2 = 0) (h : ∃ q ∈ t, 0 < q.2) :
    some (firstMax b t) = pyMax t := by
  induction t generalizing b with
  | nil => simp at h
  | cons p t ih =>
    by_cases hp : 0 < p.2
    · have hlt : p.2 > b.2 := hb ▸ hp
      show some (firstMax (if p.2 > b.2 then p else b) t) = some (firstMax p t)
      rw [if_pos hlt]
    · have hp0 : p.2 = 0 := Nat.eq_zero_of_not_pos hp
      have hnt : ∃ q ∈ t, 0 < q.2 := by
        rcases h with ⟨q, hq, hqpos⟩
        rcases List.mem_cons.mp hq with h1 | h2
        · exact absurd (h1 ▸ hqpos) hp
        · exact ⟨q, h2, hqpos⟩
      have hngt : ¬ p.2 > b.2 := by omega
      calc some (firstMax b (p :: t))
          = some (firstMax b t) := by
            show some (firstMax (if p.2 > b.2 then p else b) t) = _
            rw [if_neg hngt]
        _ = pyMax t := ih b hb hnt
        _ = some (firstMax p t) := (ih p hp0 hnt).symm
        _ = pyMax (p :: t) := rfl

theorem pyMax_filter_pos (l : List (String × ℕ)) (h : ∃ q ∈ l, 0 < q.2) :
    pyMax (l.filter (fun p => decide (0 < p.2))) = pyMax l := by
  induction l with
  | nil => simp at h
  | cons p t ih =>
    by_cases hp : 0 < p.2
    · rw [List.filter_cons_of_pos (by simpa using hp)]
      show some (firstMax p (t.filter _)) = some (firstMax p t)
      rw [firstMax_filter_pos t p hp]
    · have hp0 : p.2 = 0 := Nat.eq_zero_of_not_pos hp
      have hnt : ∃ q ∈ t, 0 < q.2 := by
        rcases h with ⟨q, hq, hqpos⟩
        rcases List.mem_cons.mp hq with h1 | h2
        · exact absurd (h1 ▸ hqpos) hp
        · exact ⟨q, h2, hqpos⟩
      rw [List.filter_cons_of_neg (by simpa using hp)]
      calc pyMax (t.filter _) = pyMax t := ih hnt
        _ = some (firstMax p t) := (firstMax_of_zero_acc t p hp0 hnt).symm
        _ = pyMax (p :: t) := rfl

theorem firstMax_split (b : String × ℕ) (l : List (String × ℕ)) :
    (firstMax b l = b ∧ ∀ p ∈ l, p.2 ≤ b.2) ∨
    ∃ l1 m l2, l = l1 ++ m :: l2 ∧ firstMax b l = m ∧ b.2 < m.2 ∧
      (∀ p ∈ l1, p.2 < m.2) ∧ (∀ p ∈ l2, p.2 ≤ m.2) := by
  induction l generalizing b with
  | nil => exact .inl ⟨rfl, by simp⟩
  | cons p t ih =>
    by_cases hgt : p.2 > b.2
    · have hred : firstMax b (p :: t) = firstMax p t := by
        show firstMax (if p.2 > b.2 then p else b) t = _
        rw [if_pos hgt]
      rcases ih p with ⟨heq, hall⟩ | ⟨l1, m, l2, hsplit, hres, hlt, h1, h2⟩
      · refine .inr ⟨[], p, t, rfl, hred.trans heq, hgt, ?_, hall⟩
        intro q hq
        cases hq
      · refine .inr ⟨p :: l1, m, l2, by rw [hsplit, List.cons_append], hred.trans hres,
          lt_trans hgt hlt, ?_, h2⟩
        intro q hq
        rcases List.mem_cons.mp hq with h3 | h3
        · exact h3 ▸ hlt
        · exact h1 q h3
    · have hle : p.2 ≤ b.2 := Nat.le_of_not_lt hgt
      have hred : firstMax b (p :: t) = firstMax b t := by
        show firstMax (if p.2 > b.2 then p else b) t = _
        rw [if_neg hgt]
      rcases ih b with ⟨heq, hall⟩ | ⟨l1, m, l2, hsplit, hres, hlt, h1, h2⟩
      · refine .inl ⟨hred.trans heq, ?_⟩
        intro q hq
        rcases List.mem_cons.mp hq with h3 | h3
        · exact h3 ▸ hle
        · exact hall q h3
      · refine .inr ⟨p :: l1, m, l2, by rw [hsplit, List.cons_append], hred.trans hres, hlt, ?_, h2⟩
        intro q hq
        rcases List.mem_cons.mp hq with h3 | h3
        · exact h3 ▸ (lt_of_le_of_lt hle hlt)
        · exact h1 q h3

/-- C4: on any text for which at least one category scores positively,
`detect_medical_condition` lower-cases the text, counts keyword substring
matches per category, and returns the category whose count is maximal;
on ties the first-seen category in enumeration order wins: the winner `m`
splits the enumeration-ordered score list into strictly-smaller-scoring
categories before it and no-larger-scoring categories after it. -/
theorem claimC4_argmax (prompt : String)
    (h : ∃ p ∈ conditionScores prompt, 0 < p.2) :
    ∃ l1 m l2, conditionScores prompt = l1 ++ m :: l2 ∧
      detect_medical_condition prompt = some m.1 ∧
      (∀ p ∈ l1, p.2 < m.2) ∧ (∀ p ∈ l2, p.2 ≤ m.2) := by
  have hd : detect_medical_condition prompt
      = (pyMax (conditionScores prompt)).map Prod.fst := by
    unfold detect_medical_condition
    rw [pyMax_filter_pos _ h]
  have hcons : ∃ a t, conditionScores prompt = a :: t :=
    ⟨_, _, rfl⟩
  rcases hcons with ⟨a, t, hat⟩
  rw [hat] at hd ⊢
  rcases firstMax_split a t with ⟨heq, hall⟩ | ⟨l1, m, l2, hsplit, hres, hlt, h1, h2⟩
  · refine ⟨[], a, t, rfl, ?_, by simp, hall⟩
    rw [hd]
    show some (firstMax a t).1 = some a.1
    rw [heq]
  · refine ⟨a :: l1, m, l2, by rw [hsplit, List.cons_append], ?_, ?_, h2⟩
    · rw [hd]
      show some (firstMax a t).1 = some m.1
      rw [hres]
    · intro q hq
      rcases List.mem_cons.mp hq with h3 | h3
      · exact h3 ▸ hlt
      · exact h1 q h3

/-- Witness for C4: on "i think i have diabetes" the diabetes category
(score 2: "diabetes", "diabetic"... in fact at least one) wins. -/
theorem claimC4_argmax_witness :
    ∃ l1 m l2, conditionScores "i think i have diabetes" = l1 ++ m :: l2 ∧
      detect_medical_condition "i think i have diabetes" = some m.1 ∧
      (∀ p ∈ l1, p.2 < m.2) ∧ (∀ p ∈ l2, p.2 ≤ m.2) :=
  claimC4_argmax "i think i have diabetes" (by decide)

/-- C5 counterexample: "unconscious" contains zero keywords from the
category table (every category scores 0) and the classifier duly returns
the absent-condition result, but the urgency classification is
"emergency", not "normal": the urgency patterns are independent of the
category table. -/
theorem claimC5_counterexample :
    (∀ p ∈ conditionScores "unconscious", p.2 = 0) ∧
    detect_medical_condition "unconscious" = none ∧
    urgencyOf "unconscious" = "emergency" ∧
    urgencyOf "unconscious" ≠ "normal" := by
  refine ⟨by decide, by decide, by decide, by decide⟩

/-- C5 amended: for every text containing zero keywords from the category
table, the classifier returns the absent-condition result `none` (no
error); the urgency classification is computed independently from the
urgency pattern lists and is "normal" exactly when no emergency and no
urgent pattern matches — a zero-keyword text may still be classified
"emergency" or "urgent". -/
theorem claimC5_amended (text : String)
    (h : ∀ p ∈ conditionScores text, p.2 = 0) :
    detect_medical_condition text = none ∧
    (urgencyOf text = "normal" ↔
      patternMatches emergency_patterns (pyLower text) = false ∧
      patternMatches urgent_patterns (pyLower text) = false) := by
  constructor
  · unfold detect_medical_condition
    have hfil : (conditionScores text).filter (fun p => decide (0 < p.2)) = [] := by
      rw [List.filter_eq_nil_iff]
      intro p hp
      simp [h p hp]
    rw [hfil]
    rfl
  · simp only [urgencyOf]
    cases he : patternMatches emergency_patterns (pyLower text) with
    | true =>
      constructor
      · intro hcontra
        exact absurd hcontra (by decide : ¬ ("emergency" : String) = "normal")
      · rintro ⟨h1, _⟩
        cases h1
    | false =>
      cases hu : patternMatches urgent_patterns (pyLower text) with
      | true =>
        constructor
        · intro hcontra
          exact absurd hcontra (by decide : ¬ ("urgent" : String) = "normal")
        · rintro ⟨_, h2⟩
          cases h2
      | false => simp

/-- Witness for C5 amended: "hello" has zero category keywords, the
classifier returns none, and since no urgency pattern matches the
urgency is "normal". -/
theorem claimC5_amended_witness :
    detect_medical_condition "hello" = none ∧
    (urgencyOf "hello" = "normal" ↔
      patternMatches emergency_patterns (pyLower "hello") = false ∧
      patternMatches urgent_patterns (pyLower "hello") = false) :=
  claimC5_amended "hello" (by decide)
